import Mathlib

/-!
Verification of the camera capture wrapper boundary (src/src/camera_wrapper.h).

The repository ships only the header: the `CameraError` enumeration and the
`CameraImage` structure are embedded directly from the source, while the
behaviour of the six entry points (`camera_create`, `camera_destroy`,
`camera_open`, `camera_close`, `camera_capture_frame`, `camera_is_open`) is
modelled from the specification's contract (state machine, error taxonomy,
resource accounting), since no implementation is present under src/.
-/

/-- Embedded from src/src/camera_wrapper.h lines 22-32: the `CameraError`
enumeration, with its eight members. -/
inductive CameraError
  | CAMERA_OK
  | CAMERA_ERROR_INIT
  | CAMERA_ERROR_NO_DEVICE
  | CAMERA_ERROR_PERMISSION
  | CAMERA_ERROR_SESSION
  | CAMERA_ERROR_CAPTURE
  | CAMERA_ERROR_NOT_OPEN
  | CAMERA_ERROR_ALREADY_OPEN
  deriving DecidableEq, Repr, Fintype

/-- The explicit signed integer value each enumerator carries in the source
(`CAMERA_OK = 0`, `CAMERA_ERROR_INIT = -1`, ..., `CAMERA_ERROR_ALREADY_OPEN = -7`). -/
def CameraError.toInt : CameraError → Int
  | .CAMERA_OK => 0
  | .CAMERA_ERROR_INIT => -1
  | .CAMERA_ERROR_NO_DEVICE => -2
  | .CAMERA_ERROR_PERMISSION => -3
  | .CAMERA_ERROR_SESSION => -4
  | .CAMERA_ERROR_CAPTURE => -5
  | .CAMERA_ERROR_NOT_OPEN => -6
  | .CAMERA_ERROR_ALREADY_OPEN => -7

/-- Embedded from src/src/camera_wrapper.h lines 14-20: the `CameraImage`
structure (grayscale byte buffer, width, height, stride).  The `uint8_t*`
buffer is modelled as the list of bytes it points to; the `uint32_t` fields
as naturals. -/
structure CameraImage where
  data : List Nat
  width : Nat
  height : Nat
  bytes_per_row : Nat
  deriving DecidableEq, Repr

/-- Modelled from the spec: the two-state session state machine of §4.4
("two states, Closed (initial) and Open").  The implementation behind the
header is not under src/, so the state is introduced here. -/
inductive CameraState
  | closed
  | opened
  deriving DecidableEq, Repr

/-- Modelled from the spec: the observable state of one camera session
handle.  The opaque `CameraHandle` (`void*`) of the header has no visible
structure in src/; the model records the session state and whether the
handle has been destroyed (released). -/
structure CameraHandle where
  state : CameraState
  destroyed : Bool
  deriving DecidableEq, Repr

/-- Modelled from the spec: the outcome the underlying native camera stack
reports when a session open is attempted — success, or a failure at one of
the four negotiation stages {INIT, NO_DEVICE, PERMISSION, SESSION}.  The
native stack is an external collaborator with no code under src/. -/
inductive OpenOutcome
  | success
  | failInit
  | failNoDevice
  | failPermission
  | failSession
  deriving DecidableEq, Repr

/-- Modelled from the spec: the outcome of one blocking frame acquisition
from the native stack — either a raw frame (bytes plus reported width,
height and stride) or an acquisition failure.  No acquisition code is
under src/. -/
inductive CaptureOutcome
  | frame (data : List Nat) (width height bytes_per_row : Nat)
  | failure
  deriving DecidableEq, Repr

/-- Modelled from the spec: `camera_create` — "returns a new session handle
in the closed state.  Must always succeed (no error path defined)."  The
header (line 34-35) only declares the entry point. -/
def camera_create : CameraHandle :=
  { state := .closed, destroyed := false }

/-- Modelled from the spec: `camera_open` — "transitions closed to open.
CAMERA_OK on success; on failure returns one of {INIT, NO_DEVICE,
PERMISSION, SESSION} and state remains closed.  Calling open on an
already-open handle fails with ALREADY_OPEN and has no side effect."
The header (line 40-41) only declares the entry point.  The native
negotiation result is passed in as `env`. -/
def camera_open (env : OpenOutcome) (h : CameraHandle) :
    CameraError × CameraHandle :=
  match h.state with
  | .opened => (.CAMERA_ERROR_ALREADY_OPEN, h)
  | .closed =>
    match env with
    | .success => (.CAMERA_OK, { h with state := .opened })
    | .failInit => (.CAMERA_ERROR_INIT, h)
    | .failNoDevice => (.CAMERA_ERROR_NO_DEVICE, h)
    | .failPermission => (.CAMERA_ERROR_PERMISSION, h)
    | .failSession => (.CAMERA_ERROR_SESSION, h)

/-- Modelled from the spec: `camera_close` — "transitions open to closed
(or is a no-op if already closed).  No error return."  The header
(line 43-44) only declares the entry point. -/
def camera_close (h : CameraHandle) : CameraHandle :=
  { h with state := .closed }

/-- Modelled from the spec: `camera_capture_frame` — "if handle is open,
synchronously acquires one frame and populates out_image with a grayscale
view.  Returns CAMERA_OK on success, CAMERA_ERROR_NOT_OPEN if the handle
is closed, CAMERA_ERROR_CAPTURE on any acquisition failure", and on
success the populated image satisfies width > 0, height > 0,
bytes_per_row ≥ width (§8).  A frame whose reported geometry violates
that grayscale-view contract is an acquisition failure.  The header
(line 46-49) only declares the entry point.  The result triple is
(error code, populated out_image if any, handle state afterwards). -/
def camera_capture_frame (env : CaptureOutcome) (h : CameraHandle) :
    CameraError × Option CameraImage × CameraHandle :=
  match h.state with
  | .closed => (.CAMERA_ERROR_NOT_OPEN, none, h)
  | .opened =>
    match env with
    | .frame d w ht bpr =>
      if 0 < w ∧ 0 < ht ∧ w ≤ bpr then
        (.CAMERA_OK, some { data := d, width := w, height := ht, bytes_per_row := bpr }, h)
      else
        (.CAMERA_ERROR_CAPTURE, none, h)
    | .failure => (.CAMERA_ERROR_CAPTURE, none, h)

/-- Modelled from the spec: `camera_is_open` — "pure query, no side effects,
reflects current session state (open/closed) as a boolean."  The header
(line 51-52) only declares the entry point. -/
def camera_is_open (h : CameraHandle) : Bool :=
  h.state = CameraState.opened

/-- Modelled from the spec: `camera_destroy` — "releases all resources
associated with the handle, closing any active session first.  No return
value."  The header (line 37-38) only declares the entry point. -/
def camera_destroy (h : CameraHandle) : CameraHandle :=
  { camera_close h with destroyed := true }

/-- Modelled from the spec: resource accounting for a handle — the number
of open underlying device sessions attributable to it ("a test double
counting open device handles").  A handle owns exactly one underlying
session when open, none when closed. -/
def openSessionCount (h : CameraHandle) : Nat :=
  match h.state with
  | .opened => 1
  | .closed => 0

/-- Claim C1: for every handle in the Closed state (including a freshly
created, never-opened handle), `camera_capture_frame` returns
CAMERA_ERROR_NOT_OPEN, does not populate out_image with a valid image, and
leaves the handle state unchanged (Closed). -/
theorem capture_on_closed (env : CaptureOutcome) (h : CameraHandle)
    (hc : h.state = CameraState.closed) :
    camera_capture_frame env h = (.CAMERA_ERROR_NOT_OPEN, none, h) := by
  simp [camera_capture_frame, hc]

/-- Witness for C1: capturing on a freshly created handle with a failing
acquisition returns NOT_OPEN, no image, and the handle unchanged. -/
theorem capture_on_closed_witness :
    camera_capture_frame CaptureOutcome.failure camera_create
      = (.CAMERA_ERROR_NOT_OPEN, none, camera_create) :=
  capture_on_closed CaptureOutcome.failure camera_create rfl

/-- Claim C2: for every handle in the Closed state, `camera_open` either
returns CAMERA_OK and transitions the handle to Open (the destroyed flag,
the only other observable component, unchanged), or returns exactly one of
{INIT, NO_DEVICE, PERMISSION, SESSION} and the handle is completely
unchanged (atomicity on failure). -/
theorem open_from_closed (env : OpenOutcome) (h : CameraHandle)
    (hc : h.state = CameraState.closed) :
    ((camera_open env h).1 = .CAMERA_OK ∧
      (camera_open env h).2.state = CameraState.opened ∧
      (camera_open env h).2.destroyed = h.destroyed) ∨
    ((camera_open env h).2 = h ∧
      ((camera_open env h).1 = .CAMERA_ERROR_INIT ∨
       (camera_open env h).1 = .CAMERA_ERROR_NO_DEVICE ∨
       (camera_open env h).1 = .CAMERA_ERROR_PERMISSION ∨
       (camera_open env h).1 = .CAMERA_ERROR_SESSION)) := by
  cases env <;> simp [camera_open, hc]

/-- Witness for C2: a successful open of a fresh handle hits the CAMERA_OK
branch of C2. -/
theorem open_from_closed_witness :
    ((camera_open OpenOutcome.success camera_create).1 = .CAMERA_OK ∧
      (camera_open OpenOutcome.success camera_create).2.state = CameraState.opened ∧
      (camera_open OpenOutcome.success camera_create).2.destroyed
        = camera_create.destroyed) ∨
    ((camera_open OpenOutcome.success camera_create).2 = camera_create ∧
      ((camera_open OpenOutcome.success camera_create).1 = .CAMERA_ERROR_INIT ∨
       (camera_open OpenOutcome.success camera_create).1 = .CAMERA_ERROR_NO_DEVICE ∨
       (camera_open OpenOutcome.success camera_create).1 = .CAMERA_ERROR_PERMISSION ∨
       (camera_open OpenOutcome.success camera_create).1 = .CAMERA_ERROR_SESSION)) :=
  open_from_closed OpenOutcome.success camera_create rfl

/-- Claim C3: for every handle in the Open state, `camera_open` returns
CAMERA_ERROR_ALREADY_OPEN and has no side effect: the handle (and so the
open session) is unchanged. -/
theorem open_on_opened (env : OpenOutcome) (h : CameraHandle)
    (ho : h.state = CameraState.opened) :
    camera_open env h = (.CAMERA_ERROR_ALREADY_OPEN, h) := by
  simp [camera_open, ho]

/-- Witness for C3: a second open (device still willing to succeed) on an
open handle returns ALREADY_OPEN and leaves the handle unchanged. -/
theorem open_on_opened_witness :
    camera_open OpenOutcome.success
        { state := CameraState.opened, destroyed := false }
      = (.CAMERA_ERROR_ALREADY_OPEN,
         { state := CameraState.opened, destroyed := false }) :=
  open_on_opened OpenOutcome.success
    { state := CameraState.opened, destroyed := false } rfl

/-- Claim C4: `camera_create` always succeeds (it is a total function with
no error path) and returns a handle in the Closed state, so
`camera_is_open` on a freshly created handle is false. -/
theorem create_starts_closed :
    camera_create.state = CameraState.closed ∧
    camera_is_open camera_create = false := by
  decide

/-- Claim C5: `camera_close` is idempotent: it always yields the Closed
state with no error return, `camera_is_open` is false afterwards,
close(close(h)) leaves the same state as close(h), and from the Closed
state it is a no-op. -/
theorem close_idempotent (h : CameraHandle) :
    (camera_close h).state = CameraState.closed ∧
    camera_is_open (camera_close h) = false ∧
    camera_close (camera_close h) = camera_close h ∧
    (h.state = CameraState.closed → camera_close h = h) := by
  refine ⟨rfl, rfl, rfl, ?_⟩
  intro hc
  cases h with
  | mk s d => cases hc; rfl

/-- Witness for C5: on a concrete closed handle, close is a no-op. -/
theorem close_idempotent_witness :
    camera_close { state := CameraState.closed, destroyed := false }
      = { state := CameraState.closed, destroyed := false } :=
  (close_idempotent { state := CameraState.closed, destroyed := false }).2.2.2 rfl

/-- Claim C6: for every handle in the Open state, when
`camera_capture_frame` returns CAMERA_OK it has populated out_image with a
CameraImage satisfying width > 0, height > 0, and bytes_per_row ≥ width. -/
theorem capture_ok_valid (env : CaptureOutcome) (h : CameraHandle)
    (ho : h.state = CameraState.opened)
    (hok : (camera_capture_frame env h).1 = .CAMERA_OK) :
    ∃ img, (camera_capture_frame env h).2.1 = some img ∧
      0 < img.width ∧ 0 < img.height ∧ img.width ≤ img.bytes_per_row := by
  cases env with
  | failure => simp [camera_capture_frame, ho] at hok
  | frame d w ht bpr =>
    by_cases hcond : 0 < w ∧ 0 < ht ∧ w ≤ bpr
    · refine ⟨{ data := d, width := w, height := ht, bytes_per_row := bpr }, ?_, hcond.1, hcond.2.1, hcond.2.2⟩
      simp [camera_capture_frame, ho, hcond]
    · simp [camera_capture_frame, ho, hcond] at hok

/-- Witness for C6: a successful 4×3 capture on an open handle populates a
valid image. -/
theorem capture_ok_valid_witness :
    ∃ img,
      (camera_capture_frame (CaptureOutcome.frame [] 4 3 4)
        { state := CameraState.opened, destroyed := false }).2.1 = some img ∧
      0 < img.width ∧ 0 < img.height ∧ img.width ≤ img.bytes_per_row :=
  capture_ok_valid (CaptureOutcome.frame [] 4 3 4)
    { state := CameraState.opened, destroyed := false } rfl (by decide)

/-- Claim C7: the CameraError enumeration assigns exactly the literal
values OK=0, INIT=-1, NO_DEVICE=-2, PERMISSION=-3, SESSION=-4, CAPTURE=-5,
NOT_OPEN=-6, ALREADY_OPEN=-7, and contains no other members. -/
theorem camera_error_values :
    (CameraError.toInt .CAMERA_OK = 0 ∧
     CameraError.toInt .CAMERA_ERROR_INIT = -1 ∧
     CameraError.toInt .CAMERA_ERROR_NO_DEVICE = -2 ∧
     CameraError.toInt .CAMERA_ERROR_PERMISSION = -3 ∧
     CameraError.toInt .CAMERA_ERROR_SESSION = -4 ∧
     CameraError.toInt .CAMERA_ERROR_CAPTURE = -5 ∧
     CameraError.toInt .CAMERA_ERROR_NOT_OPEN = -6 ∧
     CameraError.toInt .CAMERA_ERROR_ALREADY_OPEN = -7) ∧
    (∀ e : CameraError,
      e = .CAMERA_OK ∨ e = .CAMERA_ERROR_INIT ∨ e = .CAMERA_ERROR_NO_DEVICE ∨
      e = .CAMERA_ERROR_PERMISSION ∨ e = .CAMERA_ERROR_SESSION ∨
      e = .CAMERA_ERROR_CAPTURE ∨ e = .CAMERA_ERROR_NOT_OPEN ∨
      e = .CAMERA_ERROR_ALREADY_OPEN) := by
  decide

/-- Claim C8: `camera_capture_frame` never changes the handle state (its
handle result equals its handle argument, in every state and for every
acquisition outcome), and `camera_is_open` is a pure boolean query whose
result is true exactly when the session state is Open. -/
theorem capture_preserves_state (env : CaptureOutcome) (h : CameraHandle) :
    (camera_capture_frame env h).2.2 = h ∧
    (camera_is_open h = true ↔ h.state = CameraState.opened) := by
  constructor
  · cases h with
    | mk s d =>
      cases s <;> cases env <;>
        first
        | rfl
        | · simp only [camera_capture_frame]
            split <;> rfl
  · simp [camera_is_open]

/-- Claim C9: `camera_destroy` on a handle in either state first closes any
active session (it factors through `camera_close`) and then releases the
handle, so the count of open underlying device sessions attributable to
the handle is zero after destroy; destroy is a total function and never
fails. -/
theorem destroy_closes (h : CameraHandle) :
    openSessionCount (camera_destroy h) = 0 ∧
    (camera_destroy h).state = CameraState.closed ∧
    camera_destroy h = { camera_close h with destroyed := true } :=
  ⟨rfl, rfl, rfl⟩

/-- Claim C10: the eight CameraError values are pairwise distinct (toInt is
injective), and CAMERA_OK is the unique value with a non-negative integer:
a result indicates success if and only if its value is ≥ 0, equivalently
it is CAMERA_OK (value 0). -/
theorem camera_error_sign :
    (∀ e1 e2 : CameraError, e1.toInt = e2.toInt → e1 = e2) ∧
    (∀ e : CameraError, 0 ≤ e.toInt ↔ e = .CAMERA_OK) ∧
    (∀ e : CameraError, e.toInt = 0 ↔ e = .CAMERA_OK) := by
  decide

/-- Witness for C10: instantiating the injectivity and sign parts at
concrete enumerators. -/
theorem camera_error_sign_witness :
    CameraError.CAMERA_ERROR_CAPTURE = CameraError.CAMERA_ERROR_CAPTURE ∧
    (0 ≤ CameraError.toInt .CAMERA_OK ↔
      (CameraError.CAMERA_OK : CameraError) = .CAMERA_OK) :=
  ⟨camera_error_sign.1 .CAMERA_ERROR_CAPTURE .CAMERA_ERROR_CAPTURE rfl,
   camera_error_sign.2.1 .CAMERA_OK⟩
